import Mathlib

/-!
Verification of the quantalogic task-execution engine specification.

The repository ships thin consumers of the engine (a CLI wrapper in
`quantalogic/main.py`, a Streamlit finance example in
`examples/10-finance-agent.py`, a news-search helper). The engine core
(working memory, tool registry, event bus, task-execution loop) is consumed
through the `quantalogic` package; where its code is not present, the
definitions below are modelled from the specification, as marked in
doc comments. The code that is present (`main.py` terminal handling, the
finance-agent tools) is embedded directly.
-/

namespace Quantalogic

/-! ## Working Memory (§4.2) -/

/-- A step record in Working Memory: either an ordinary record produced by a
loop iteration, or a synthesized summary standing in for compacted steps. -/
inductive Step where
  | record (content : String)
  | summary (content : String)
deriving DecidableEq, Repr

/-- The text carried by a step. -/
def Step.content : Step → String
  | .record c => c
  | .summary c => c

/-- Modelled from the spec: Working Memory is "the ordered sequence of Step
Records (and/or a condensed summary standing in for earlier steps after
compaction)"; the backing store is absent from the repository sources. -/
structure WorkingMemory where
  steps : List Step
deriving DecidableEq, Repr

namespace WorkingMemory

/-- Modelled from the spec: `snapshot() → ordered sequence of steps for
prompting`. -/
def snapshot (m : WorkingMemory) : List Step := m.steps

/-- Modelled from the spec: `append(step)` on the append-only backing store. -/
def append (m : WorkingMemory) (s : Step) : WorkingMemory := ⟨m.steps ++ [s]⟩

/-- Modelled from the spec: `compact()` replaces "the oldest contiguous run of
steps with a single synthesized summary record", "preserving the most recent K
steps verbatim", and fires only when the size bound `maxSize` (step count) is
exceeded. The summarizer (model call or truncation fallback) is a parameter. -/
def compact (summarize : List Step → Step) (maxSize K : Nat) (m : WorkingMemory) :
    WorkingMemory :=
  if m.steps.length ≤ maxSize then m
  else ⟨summarize (m.steps.take (m.steps.length - K)) :: m.steps.drop (m.steps.length - K)⟩

end WorkingMemory

/-- A concrete summarizer: concatenate the texts of the summarized steps. -/
def joinSummary (l : List Step) : Step := Step.summary (String.join (l.map Step.content))

/-- Sample memory with five records, used by concrete witnesses. -/
def sampleMemory : WorkingMemory :=
  ⟨[.record "s1", .record "s2", .record "s3", .record "s4", .record "s5"]⟩

/-- C2: immediately after `compact()` the snapshot length does not exceed the
configured maximum, and the most recent K steps present before compaction
remain verbatim (as a suffix of the new snapshot). -/
theorem compact_bound_and_preserves_recent (summarize : List Step → Step)
    (maxSize K : Nat) (m : WorkingMemory) (hK2 : 2 ≤ K) (hK : K + 1 ≤ maxSize) :
    (WorkingMemory.compact summarize maxSize K m).snapshot.length ≤ maxSize ∧
    m.snapshot.drop (m.snapshot.length - K) <:+
      (WorkingMemory.compact summarize maxSize K m).snapshot := by
  unfold WorkingMemory.compact WorkingMemory.snapshot
  split
  · exact ⟨by assumption, List.drop_suffix _ _⟩
  · rename_i hlen
    push_neg at hlen
    constructor
    · simp only [List.length_cons, List.length_drop]
      omega
    · exact List.suffix_cons _ _

/-- Witness for C2 at a concrete memory, bound and K. -/
theorem compact_bound_and_preserves_recent_witness :
    (2 ≤ 2 ∧ 2 + 1 ≤ 4) ∧
    ((WorkingMemory.compact joinSummary 4 2 sampleMemory).snapshot.length ≤ 4 ∧
      sampleMemory.snapshot.drop (sampleMemory.snapshot.length - 2) <:+
        (WorkingMemory.compact joinSummary 4 2 sampleMemory).snapshot) :=
  ⟨⟨by decide, by decide⟩,
    compact_bound_and_preserves_recent joinSummary 4 2 sampleMemory (by decide) (by decide)⟩

/-- C5: `compact()` is idempotent — a second call with no intervening append
is a no-op. -/
theorem compact_idempotent (summarize : List Step → Step) (maxSize K : Nat)
    (m : WorkingMemory) (hK : K + 1 ≤ maxSize) :
    WorkingMemory.compact summarize maxSize K (WorkingMemory.compact summarize maxSize K m) =
      WorkingMemory.compact summarize maxSize K m := by
  unfold WorkingMemory.compact
  split
  · rfl
  · rename_i hlen
    push_neg at hlen
    rw [if_pos]
    dsimp only
    simp only [List.length_cons, List.length_drop]
    omega

/-- Witness for C5 at a concrete memory, bound and K. -/
theorem compact_idempotent_witness :
    2 + 1 ≤ 4 ∧
    WorkingMemory.compact joinSummary 4 2 (WorkingMemory.compact joinSummary 4 2 sampleMemory) =
      WorkingMemory.compact joinSummary 4 2 sampleMemory :=
  ⟨by decide, compact_idempotent joinSummary 4 2 sampleMemory (by decide)⟩

/-! ## Tool Contract & Registry (§4.1) -/

/-- An argument specification, following the `ToolArgument` fields used in
`examples/10-finance-agent.py` (name, arg_type, description, required,
default). -/
structure ToolArgument where
  name : String
  argType : String
  description : String
  required : Bool
  default : Option String
deriving DecidableEq, Repr

/-- A tool descriptor: name, description and ordered argument specifications,
as carried by each `Tool` subclass in `examples/10-finance-agent.py`. -/
structure ToolDescriptor where
  name : String
  description : String
  arguments : List ToolArgument
deriving DecidableEq, Repr

/-- Registry failures from §4.1 and §7 of the specification. -/
inductive RegistryError where
  | DuplicateToolError (name : String)
  | UnknownToolError (name : String)
deriving DecidableEq, Repr

/-- Modelled from the spec: the Tool Registry, "a mapping from tool name to
(descriptor, callable implementation)", kept as an ordered list so `list()`
returns descriptors in registration order; the registry implementation is
absent from the repository sources. `α` is the implementation type. -/
structure Registry (α : Type) where
  entries : List (ToolDescriptor × α)

namespace Registry

/-- Whether some registered tool bears the name `n`. -/
def hasName (r : Registry α) (n : String) : Bool :=
  r.entries.any (fun e => e.1.name == n)

/-- Modelled from the spec: `register(descriptor, impl)` "fails with
DuplicateToolError if name already present". -/
def register (r : Registry α) (d : ToolDescriptor) (impl : α) :
    Except RegistryError (Registry α) :=
  if r.hasName d.name then .error (.DuplicateToolError d.name)
  else .ok ⟨r.entries ++ [(d, impl)]⟩

/-- Modelled from the spec: `resolve(name) → tool`, "fails with
UnknownToolError if absent". -/
def resolve (r : Registry α) (n : String) : Except RegistryError (ToolDescriptor × α) :=
  match r.entries.find? (fun e => e.1.name == n) with
  | some e => .ok e
  | none => .error (.UnknownToolError n)

/-- Modelled from the spec: `list() → ordered sequence of descriptors`. -/
def descriptorList (r : Registry α) : List ToolDescriptor :=
  r.entries.map Prod.fst

end Registry

/-- Modelled from the spec: the registry is "built once at engine construction
from the active mode's toolset" — registration of every tool happens during
setup, before the loop runs any step. -/
def buildRegistry (tools : List (ToolDescriptor × α)) : Except RegistryError (Registry α) :=
  tools.foldlM (fun r t => r.register t.1 t.2) ⟨[]⟩

/-- C3: `register` fails with DuplicateToolError exactly when the name is
already registered, `resolve` fails with UnknownToolError exactly when the
name is absent, and in all other cases both succeed. -/
theorem register_resolve_error_conditions {α : Type} (r : Registry α)
    (d : ToolDescriptor) (impl : α) (n : String) :
    (r.register d impl = .error (.DuplicateToolError d.name) ↔ r.hasName d.name = true) ∧
    ((∃ r', r.register d impl = .ok r') ↔ r.hasName d.name = false) ∧
    (r.resolve n = .error (.UnknownToolError n) ↔ r.hasName n = false) ∧
    ((∃ t, r.resolve n = .ok t) ↔ r.hasName n = true) := by
  have resolveCases : (∃ e, r.hasName n = true ∧
      r.resolve n = .ok e) ∨ (r.hasName n = false ∧
      r.resolve n = .error (.UnknownToolError n)) := by
    rcases hf : r.entries.find? (fun e => e.1.name == n) with _ | e
    · right
      constructor
      · rw [Bool.eq_false_iff]
        intro hc
        unfold Registry.hasName at hc
        rw [List.any_eq_true] at hc
        obtain ⟨x, hx, hb⟩ := hc
        exact absurd hb (by simpa using (List.find?_eq_none.mp hf) x hx)
      · unfold Registry.resolve
        rw [hf]
    · left
      refine ⟨e, ?_, ?_⟩
      · have hp := List.find?_some hf
        unfold Registry.hasName
        rw [List.any_eq_true]
        exact ⟨e, List.mem_of_find?_eq_some hf, hp⟩
      · unfold Registry.resolve
        rw [hf]
  refine ⟨?_, ?_, ?_, ?_⟩
  · unfold Registry.register
    cases hb : r.hasName d.name
    · simp [hb]
    · simp [hb]
  · unfold Registry.register
    cases hb : r.hasName d.name
    · simp [hb]
    · simp [hb]
  · rcases resolveCases with ⟨e, hn, hr⟩ | ⟨hn, hr⟩
    · simp [hn, hr]
    · simp [hn, hr]
  · rcases resolveCases with ⟨e, hn, hr⟩ | ⟨hn, hr⟩
    · simp [hn, hr]
    · simp [hn, hr]

/-- Sample descriptors used by concrete witnesses (the finance agent's
`yfinance_tool` and `input_tool` names). -/
def yfinanceDescriptor : ToolDescriptor :=
  ⟨"yfinance_tool", "Fetches historical stock data",
    [⟨"ticker", "string", "Stock symbol", true, none⟩,
     ⟨"start_date", "string", "Start date (YYYY-MM-DD)", true, none⟩,
     ⟨"end_date", "string", "End date (YYYY-MM-DD)", true, none⟩]⟩

/-- A one-entry registry over unit implementations, for witnesses. -/
def sampleRegistry : Registry Unit := ⟨[(yfinanceDescriptor, ())]⟩

/-- Witness for C3: a duplicate registration fails, a fresh name resolves, an
absent name fails to resolve. -/
theorem register_resolve_error_conditions_witness :
    (sampleRegistry.register yfinanceDescriptor () =
        .error (.DuplicateToolError "yfinance_tool") ↔
      sampleRegistry.hasName "yfinance_tool" = true) ∧
    ((∃ r', sampleRegistry.register yfinanceDescriptor () = .ok r') ↔
      sampleRegistry.hasName "yfinance_tool" = false) ∧
    (sampleRegistry.resolve "input_tool" = .error (.UnknownToolError "input_tool") ↔
      sampleRegistry.hasName "input_tool" = false) ∧
    ((∃ t, sampleRegistry.resolve "input_tool" = .ok t) ↔
      sampleRegistry.hasName "input_tool" = true) :=
  register_resolve_error_conditions sampleRegistry yfinanceDescriptor () "input_tool"

/-! ## Task Execution Loop (§4.5) -/

/-- Modelled from the spec: the parse of an assembled model response — "either
a tool invocation (name + arguments) or a final-answer marker", with parse
failure as a recoverable case; the parser lives in the engine, absent from
the repository sources. -/
inductive ParsedAction where
  | toolCall (name : String) (args : List (String × String))
  | finalAnswer (text : String)
  | parseFailure
deriving DecidableEq, Repr

/-- One model call's outcome: the raw (assembled) output text and its parse. -/
structure ModelResponse where
  raw : String
  action : ParsedAction
deriving DecidableEq, Repr

/-- Terminal states of the loop (§4.5). -/
inductive TaskStatus where
  | completed
  | failed
  | iterationLimitReached
deriving DecidableEq, Repr

/-- Modelled from the spec: `TaskResult ⦃status, answer, error⦄` from §6. -/
structure TaskResult where
  status : TaskStatus
  answer : String
  error : Option String
deriving DecidableEq, Repr

/-- A tool implementation: named string arguments to result text. -/
def ToolImpl : Type := List (String × String) → String

/-- The first required argument of `d` absent from the supplied mapping, if
any — the validation §4.1 demands before a tool performs work. -/
def missingRequired (d : ToolDescriptor) (args : List (String × String)) : Option String :=
  (d.arguments.find? (fun a => a.required && (args.lookup a.name).isNone)).map ToolArgument.name

/-- Modelled from the spec: ActionDispatch resolves and calls the tool,
"propagating its argument-validation and execution errors as the tool's
result text, never as an uncaught failure of the loop"; always returns an
observation string. -/
def executeTool (r : Registry ToolImpl) (n : String) (args : List (String × String)) :
    String :=
  match r.resolve n with
  | .error _ => "UnknownToolError: tool " ++ n ++ " is not registered"
  | .ok (d, impl) =>
      match missingRequired d args with
      | some a => "ToolArgumentError: missing required argument " ++ a
      | none => impl args

/-- Modelled from the spec: the Thinking/ActionDispatch state machine of §4.5,
absent from the repository sources. `oracle i` is the model's response on the
i-th Thinking cycle; `remaining` is the unspent iteration budget, `done` the
cycles performed so far, `lastOut` the last raw model output. Returns the
task result together with the total number of Thinking cycles performed.
Presentation events are omitted here; they are modelled separately. -/
def runLoop (oracle : Nat → ModelResponse) (reg : Registry ToolImpl)
    (summarize : List Step → Step) (maxSize K : Nat) :
    Nat → Nat → String → WorkingMemory → TaskResult × Nat
  | 0, done, lastOut, _ => (⟨.iterationLimitReached, lastOut, none⟩, done)
  | remaining + 1, done, _, mem =>
    match (oracle done).action with
    | .finalAnswer t => (⟨.completed, t, none⟩, done + 1)
    | .toolCall n args =>
        runLoop oracle reg summarize maxSize K remaining (done + 1) (oracle done).raw
          (WorkingMemory.compact summarize maxSize K
            (mem.append (.record (executeTool reg n args))))
    | .parseFailure =>
        runLoop oracle reg summarize maxSize K remaining (done + 1) (oracle done).raw
          (WorkingMemory.compact summarize maxSize K
            (mem.append (.record "ActionParseError: malformed action")))

/-- The message carried by a fatal registry misconfiguration (§7). -/
def registryErrorMessage : RegistryError → String
  | .DuplicateToolError n => "DuplicateToolError: " ++ n
  | .UnknownToolError n => "UnknownToolError: " ++ n

/-- Modelled from the spec: a full task run — registry construction at setup
(a duplicate name is fatal, detected before any step), then the loop from the
initial Thinking state with an empty Working Memory. -/
def runTask (tools : List (ToolDescriptor × ToolImpl)) (oracle : Nat → ModelResponse)
    (summarize : List Step → Step) (maxSize K maxIterations : Nat) : TaskResult × Nat :=
  match buildRegistry tools with
  | .error e => (⟨.failed, "", some (registryErrorMessage e)⟩, 0)
  | .ok reg => runLoop oracle reg summarize maxSize K maxIterations 0 "" ⟨[]⟩

/-- The loop never performs more cycles than the remaining budget allows. -/
theorem runLoop_cycles_le (oracle : Nat → ModelResponse) (reg : Registry ToolImpl)
    (summarize : List Step → Step) (maxSize K : Nat) :
    ∀ remaining done lastOut mem,
      (runLoop oracle reg summarize maxSize K remaining done lastOut mem).2 ≤
        done + remaining := by
  intro remaining
  induction remaining with
  | zero => intro done lastOut mem; simp [runLoop]
  | succ r ih =>
    intro done lastOut mem
    simp only [runLoop]
    split
    · omega
    · exact le_trans (ih _ _ _) (by omega)
    · exact le_trans (ih _ _ _) (by omega)

/-- The cycle counter never decreases below the cycles already performed. -/
theorem runLoop_cycles_lower (oracle : Nat → ModelResponse) (reg : Registry ToolImpl)
    (summarize : List Step → Step) (maxSize K : Nat) :
    ∀ remaining done lastOut mem,
      done ≤ (runLoop oracle reg summarize maxSize K remaining done lastOut mem).2 := by
  intro remaining
  induction remaining with
  | zero => intro done lastOut mem; simp [runLoop]
  | succ r ih =>
    intro done lastOut mem
    simp only [runLoop]
    split
    · omega
    · exact le_trans (by omega) (ih _ _ _)
    · exact le_trans (by omega) (ih _ _ _)

/-- With budget left, at least one further Thinking cycle happens. -/
theorem runLoop_cycles_pos (oracle : Nat → ModelResponse) (reg : Registry ToolImpl)
    (summarize : List Step → Step) (maxSize K : Nat)
    (s done : Nat) (lastOut : String) (mem : WorkingMemory) :
    done + 1 ≤ (runLoop oracle reg summarize maxSize K (s + 1) done lastOut mem).2 := by
  simp only [runLoop]
  split
  · omega
  · exact le_trans (by omega) (runLoop_cycles_lower oracle reg summarize maxSize K _ _ _ _)
  · exact le_trans (by omega) (runLoop_cycles_lower oracle reg summarize maxSize K _ _ _ _)

/-- When the loop ends by exhausting the budget, it has performed exactly the
whole budget and answers with the last raw model output. -/
theorem runLoop_limit_answer (oracle : Nat → ModelResponse) (reg : Registry ToolImpl)
    (summarize : List Step → Step) (maxSize K : Nat) :
    ∀ remaining done lastOut mem,
      (runLoop oracle reg summarize maxSize K remaining done lastOut mem).1.status =
          .iterationLimitReached →
        (runLoop oracle reg summarize maxSize K remaining done lastOut mem).2 =
            done + remaining ∧
          (runLoop oracle reg summarize maxSize K remaining done lastOut mem).1.answer =
            (if remaining = 0 then lastOut else (oracle (done + (remaining - 1))).raw) := by
  intro remaining
  induction remaining with
  | zero => intro done lastOut mem _; simp [runLoop]
  | succ r ih =>
    intro done lastOut mem hstat
    simp only [runLoop] at hstat ⊢
    split at hstat
    · exact absurd hstat (by simp_all)
    · obtain ⟨hc, ha⟩ := ih _ _ _ hstat
      refine ⟨by omega, ?_⟩
      rw [if_neg (Nat.succ_ne_zero r), Nat.succ_sub_one]
      rcases r with _ | s
      · simpa using ha
      · rw [ha, if_neg (Nat.succ_ne_zero s), Nat.succ_sub_one]
        congr 2
        omega
    · obtain ⟨hc, ha⟩ := ih _ _ _ hstat
      refine ⟨by omega, ?_⟩
      rw [if_neg (Nat.succ_ne_zero r), Nat.succ_sub_one]
      rcases r with _ | s
      · simpa using ha
      · rw [ha, if_neg (Nat.succ_ne_zero s), Nat.succ_sub_one]
        congr 2
        omega

/-- C1: a run performs at most `maxIterations` Thinking cycles; if the budget
is exhausted without a final answer, the run ends in IterationLimitReached
having performed exactly `maxIterations` cycles and returns the last raw
model output as the partial answer. -/
theorem iteration_budget_enforced (tools : List (ToolDescriptor × ToolImpl))
    (oracle : Nat → ModelResponse) (summarize : List Step → Step)
    (maxSize K N : Nat) (hN : 1 ≤ N) :
    (runTask tools oracle summarize maxSize K N).2 ≤ N ∧
    ((runTask tools oracle summarize maxSize K N).1.status = .iterationLimitReached →
      (runTask tools oracle summarize maxSize K N).2 = N ∧
      (runTask tools oracle summarize maxSize K N).1.answer = (oracle (N - 1)).raw) := by
  unfold runTask
  split
  · exact ⟨Nat.zero_le N, fun h => nomatch h⟩
  · rename_i reg heq
    constructor
    · have h1 := runLoop_cycles_le oracle reg summarize maxSize K N 0 "" ⟨[]⟩
      omega
    · intro h
      obtain ⟨hc, ha⟩ := runLoop_limit_answer oracle reg summarize maxSize K N 0 "" ⟨[]⟩ h
      refine ⟨by omega, ?_⟩
      rw [ha, if_neg (by omega)]
      simp

/-- A model oracle that always proposes the same tool call with no
arguments, used by concrete witnesses. -/
def sampleOracle : Nat → ModelResponse :=
  fun i => ⟨"model output " ++ toString i, .toolCall "yfinance_tool" []⟩

/-- A constant sample implementation. -/
def sampleImpl : ToolImpl := fun _ => "ok"

/-- A one-tool toolset for concrete witnesses. -/
def sampleTools : List (ToolDescriptor × ToolImpl) := [(yfinanceDescriptor, sampleImpl)]

/-- Witness for C1 at a concrete oracle and budget N = 2. -/
theorem iteration_budget_enforced_witness :
    1 ≤ 2 ∧
    ((runTask sampleTools sampleOracle joinSummary 10 2 2).2 ≤ 2 ∧
      ((runTask sampleTools sampleOracle joinSummary 10 2 2).1.status =
          .iterationLimitReached →
        (runTask sampleTools sampleOracle joinSummary 10 2 2).2 = 2 ∧
        (runTask sampleTools sampleOracle joinSummary 10 2 2).1.answer =
          (sampleOracle (2 - 1)).raw)) :=
  ⟨by decide,
    iteration_budget_enforced sampleTools sampleOracle joinSummary 10 2 2 (by decide)⟩

/-- C4: an invocation omitting a required argument produces a
ToolArgumentError observation string containing the missing argument's name
(`executeTool` returns it as data — by construction it cannot raise), and
after dispatching such a call the loop re-enters a further Thinking state
rather than terminating the task. -/
theorem missing_argument_observation_and_loop_continues
    (r : Registry ToolImpl) (n : String) (args : List (String × String))
    (d : ToolDescriptor) (impl : ToolImpl) (a : String)
    (hres : r.resolve n = .ok (d, impl))
    (hmiss : missingRequired d args = some a)
    (oracle : Nat → ModelResponse) (summarize : List Step → Step)
    (maxSize K remaining done : Nat) (lastOut : String) (mem : WorkingMemory)
    (hact : (oracle done).action = .toolCall n args)
    (hrem : 2 ≤ remaining) :
    (executeTool r n args = "ToolArgumentError: missing required argument " ++ a ∧
      ∃ p q, executeTool r n args = p ++ a ++ q) ∧
    done + 2 ≤ (runLoop oracle r summarize maxSize K remaining done lastOut mem).2 := by
  have hexec : executeTool r n args =
      "ToolArgumentError: missing required argument " ++ a := by
    unfold executeTool
    rw [hres]
    dsimp only
    rw [hmiss]
  constructor
  · refine ⟨hexec, "ToolArgumentError: missing required argument ", "", ?_⟩
    rw [hexec, String.append_empty]
  · obtain ⟨r2, rfl⟩ : ∃ r2, remaining = r2 + 1 + 1 := ⟨remaining - 2, by omega⟩
    simp only [runLoop]
    rw [hact]
    have hp := runLoop_cycles_pos oracle r summarize maxSize K r2 (done + 1)
      (oracle done).raw
      (WorkingMemory.compact summarize maxSize K
        (mem.append (.record (executeTool r n args))))
    exact le_trans (by omega) hp

/-- Registry over string-function implementations for the C4 witness. -/
def sampleToolRegistry : Registry ToolImpl := ⟨[(yfinanceDescriptor, sampleImpl)]⟩

/-- Witness for C4: calling `yfinance_tool` with no arguments at all misses
the required `ticker` argument; the observation names it and the loop goes
on. -/
theorem missing_argument_observation_and_loop_continues_witness :
    (sampleToolRegistry.resolve "yfinance_tool" = .ok (yfinanceDescriptor, sampleImpl) ∧
      missingRequired yfinanceDescriptor [] = some "ticker" ∧
      (sampleOracle 0).action = .toolCall "yfinance_tool" [] ∧
      2 ≤ 2) ∧
    ((executeTool sampleToolRegistry "yfinance_tool" [] =
        "ToolArgumentError: missing required argument " ++ "ticker" ∧
      ∃ p q, executeTool sampleToolRegistry "yfinance_tool" [] = p ++ "ticker" ++ q) ∧
    0 + 2 ≤ (runLoop sampleOracle sampleToolRegistry joinSummary 10 2 2 0 "" ⟨[]⟩).2) :=
  ⟨⟨rfl, rfl, rfl, by decide⟩,
    missing_argument_observation_and_loop_continues sampleToolRegistry "yfinance_tool" []
      yfinanceDescriptor sampleImpl "ticker" rfl rfl sampleOracle joinSummary
      10 2 2 0 "" ⟨[]⟩ rfl (by decide)⟩

/-! ## Events and the Event Bus (§3, §4.3) -/

/-- The event kinds of §3. -/
inductive EventKind where
  | stepStarted
  | modelThinkingStarted
  | modelThinkingEnded
  | toolStarted
  | toolEnded
  | streamFragment
  | taskCompleted
  | taskFailed
deriving DecidableEq, Repr

/-- A tagged event record ⦃kind, payload⦄ from §3. -/
inductive Event where
  | stepStarted (index : Nat)
  | modelThinkingStarted
  | modelThinkingEnded
  | toolStarted (name : String)
  | toolEnded (name : String)
  | streamFragment (text : String)
  | taskCompleted (answer : String)
  | taskFailed (error : String)
deriving DecidableEq, Repr

/-- The kind tag of an event. -/
def Event.kind : Event → EventKind
  | .stepStarted _ => .stepStarted
  | .modelThinkingStarted => .modelThinkingStarted
  | .modelThinkingEnded => .modelThinkingEnded
  | .toolStarted _ => .toolStarted
  | .toolEnded _ => .toolEnded
  | .streamFragment _ => .streamFragment
  | .taskCompleted _ => .taskCompleted
  | .taskFailed _ => .taskFailed

/-- Modelled from the spec: a model call draining its fragment sequence.
"If streaming is enabled, each incremental text fragment is published as a
`stream-fragment` event immediately upon receipt, before the full response is
assembled". The accumulator carries (events published so far, text assembled
so far); the streaming engine itself is absent from the repository sources. -/
def processFragments (streaming : Bool) (fragments : List String) :
    List Event × String :=
  fragments.foldl
    (fun acc frag =>
      ((if streaming then acc.1 ++ [Event.streamFragment frag] else acc.1),
        acc.2 ++ frag))
    ([], "")

/-- Modelled from the spec: the model response visible to the loop when the
raw text is assembled from `fragOracle i` and parsed by `parse`. -/
def respond (streaming : Bool) (fragOracle : Nat → List String)
    (parse : String → ParsedAction) (i : Nat) : ModelResponse :=
  ⟨(processFragments streaming (fragOracle i)).2,
    parse (processFragments streaming (fragOracle i)).2⟩

/-- Modelled from the spec: a run whose model outputs arrive as fragment
sequences, with streaming either enabled or disabled. -/
def runStreamed (streaming : Bool) (fragOracle : Nat → List String)
    (parse : String → ParsedAction) (reg : Registry ToolImpl)
    (summarize : List Step → Step) (maxSize K N : Nat) : TaskResult × Nat :=
  runLoop (respond streaming fragOracle parse) reg summarize maxSize K N 0 "" ⟨[]⟩

/-- Folding string appends from a shifted accumulator. -/
theorem foldl_append_shift :
    ∀ (fs : List String) (a b : String),
      List.foldl (fun r s => r ++ s) (a ++ b) fs =
        a ++ List.foldl (fun r s => r ++ s) b fs := by
  intro fs
  induction fs with
  | nil => intro a b; rfl
  | cons c cs ih =>
    intro a b
    simp only [List.foldl_cons, String.append_assoc, ih]

/-- Unfolding the fragment fold for an arbitrary accumulator. -/
theorem processFragments_foldl (streaming : Bool) :
    ∀ (fragments : List String) (es : List Event) (t : String),
      fragments.foldl
        (fun acc frag =>
          ((if streaming then acc.1 ++ [Event.streamFragment frag] else acc.1),
            acc.2 ++ frag))
        (es, t) =
      (es ++ (if streaming then fragments.map Event.streamFragment else []),
        t ++ String.join fragments) := by
  intro fragments
  induction fragments with
  | nil => intro es t; simp [String.join]
  | cons f fs ih =>
    intro es t
    simp only [List.foldl_cons, ih, List.map_cons, String.join]
    have h := foldl_append_shift fs f ""
    rw [String.append_empty] at h
    cases streaming
    · simp [String.append_assoc, h]
    · simp [String.append_assoc, h]

/-- C6: for a fixed fragment sequence the assembled text is the same with
streaming on or off; streaming only adds the per-fragment stream-fragment
events, published in order as each fragment arrives (already after any prefix
of the sequence); and the whole run returns an identical final result. -/
theorem streaming_equivalence (fragments : List String)
    (fragOracle : Nat → List String) (parse : String → ParsedAction)
    (reg : Registry ToolImpl) (summarize : List Step → Step) (maxSize K N : Nat) :
    (processFragments true fragments).2 = (processFragments false fragments).2 ∧
    (processFragments true fragments).1 = fragments.map Event.streamFragment ∧
    (processFragments false fragments).1 = [] ∧
    (∀ i, (processFragments true (fragments.take i)).1 =
      (fragments.take i).map Event.streamFragment) ∧
    runStreamed true fragOracle parse reg summarize maxSize K N =
      runStreamed false fragOracle parse reg summarize maxSize K N := by
  have hresp : respond true fragOracle parse = respond false fragOracle parse := by
    funext i
    unfold respond processFragments
    rw [processFragments_foldl true, processFragments_foldl false]
  refine ⟨?_, ?_, ?_, ?_, ?_⟩
  · unfold processFragments
    rw [processFragments_foldl true, processFragments_foldl false]
  · unfold processFragments
    rw [processFragments_foldl true]
    simp
  · unfold processFragments
    rw [processFragments_foldl false]
    simp
  · intro i
    unfold processFragments
    rw [processFragments_foldl true]
    simp
  · unfold runStreamed
    rw [hresp]

/-- Modelled from the spec: a subscription on the bus — the kinds it was
registered for and its handler. A handler may update the observer state `σ`
or raise (`Except.error`); the bus implementation is absent from the
repository sources. -/
structure Subscription (σ : Type) where
  kinds : List EventKind
  handler : σ → Event → Except String σ

/-- Modelled from the spec: the Event Bus — an ordered list of subscriptions,
in registration order. -/
structure EventEmitter (σ : Type) where
  subs : List (Subscription σ)

/-- Modelled from the spec: `on(kinds, handler)` registers a handler for one
or more event kinds, appended in registration order. -/
def EventEmitter.on (bus : EventEmitter σ) (kinds : List EventKind)
    (handler : σ → Event → Except String σ) : EventEmitter σ :=
  ⟨bus.subs ++ [⟨kinds, handler⟩]⟩

/-- Delivery walk: each matching subscription's handler is invoked in order
(the handler runs to completion before the walk moves on); an `Except.error`
from a handler is isolated — the state update is discarded, the walk
continues, and nothing propagates. Returns the final state and the delivery
log: for every matching subscription, its registration index and whether its
handler raised. -/
def deliverFrom (e : Event) : List (Subscription σ) → Nat → σ → σ × List (Nat × Bool)
  | [], _, st => (st, [])
  | sub :: rest, i, st =>
    match sub.kinds.contains e.kind with
    | false => deliverFrom e rest (i + 1) st
    | true =>
      match sub.handler st e with
      | .ok st2 =>
          ((deliverFrom e rest (i + 1) st2).1, (i, false) :: (deliverFrom e rest (i + 1) st2).2)
      | .error _ =>
          ((deliverFrom e rest (i + 1) st).1, (i, true) :: (deliverFrom e rest (i + 1) st).2)

/-- Modelled from the spec: `emit(event)` delivers the event to every
matching handler in registration order on the caller's context; it is a total
function, so no handler exception escapes into the loop. -/
def EventEmitter.emit (bus : EventEmitter σ) (e : Event) (st : σ) :
    σ × List (Nat × Bool) :=
  deliverFrom e bus.subs 0 st

/-- The registration indices of the subscriptions matching an event's kind,
in registration order (the delivery the spec demands). -/
def matchingIndices (bus : EventEmitter σ) (e : Event) : List Nat :=
  ((List.enumFrom 0 bus.subs).filter (fun p => p.2.kinds.contains e.kind)).map Prod.fst

/-- The delivery log lists exactly the matching subscriptions, in
registration order, whatever the handlers do. -/
theorem deliverFrom_log (e : Event) :
    ∀ (subs : List (Subscription σ)) (i : Nat) (st : σ),
      (deliverFrom e subs i st).2.map Prod.fst =
        ((List.enumFrom i subs).filter (fun p => p.2.kinds.contains e.kind)).map
          Prod.fst := by
  intro subs
  induction subs with
  | nil => intro i st; simp [deliverFrom]
  | cons sub rest ih =>
    intro i st
    by_cases hm : e.kind ∈ sub.kinds
    · rcases hh : sub.handler st e with err | st2
      · simp [deliverFrom, hm, hh, List.enumFrom_cons, List.filter_cons, ih]
      · simp [deliverFrom, hm, hh, List.enumFrom_cons, List.filter_cons, ih]
    · simp [deliverFrom, hm, List.enumFrom_cons, List.filter_cons, ih]

/-- C7: `emit` delivers the event to every handler registered for the event's
kind, in registration order; a handler that raises does not stop delivery to
later matching handlers, and — `emit` being a total function — the exception
does not propagate to the caller. -/
theorem emit_delivers_in_order_isolating_errors {σ : Type}
    (bus : EventEmitter σ) (e : Event) (st : σ) :
    (bus.emit e st).2.map Prod.fst = matchingIndices bus e := by
  unfold EventEmitter.emit matchingIndices
  exact deliverFrom_log e bus.subs 0 st

/-! ## Streamlit session state and the finance-agent tools
(`examples/10-finance-agent.py`) -/

/-- The shared mutable Streamlit session state used by the finance agent:
`st.session_state.user_input` (written and read by `StreamlitInputTool`),
`st.session_state.response` (written by `handle_stream_chunk`), and the
rendered output sink (`st.markdown`/`st.subheader`/`st.dataframe`/charts).
`none` models an absent key. -/
structure SessionState where
  userInput : Option String
  response : Option String
  displayed : List String
deriving DecidableEq, Repr

/-- A fresh Streamlit session: no keys set, nothing rendered. -/
def freshSession : SessionState := ⟨none, none, []⟩

/-- Embedded from `StreamlitInputTool.execute` (lines 38–48): default the
`user_input` key to `""` when absent, render the question, and — when the
form was submitted with non-empty text (`submitted = some input`) — store the
input and rerun the script (modelled as returning `none`: this run produces
no value). Otherwise return the stored `user_input`, which may have been
written by an earlier invocation. -/
def streamlitInput_execute (state : SessionState) (question : String)
    (submitted : Option String) : SessionState × Option String :=
  let st1 : SessionState :=
    match state.userInput with
    | none => { state with userInput := some "" }
    | some _ => state
  let st2 : SessionState := { st1 with displayed := st1.displayed ++ [question] }
  match submitted with
  | some input =>
      if input ≠ "" then ({ st2 with userInput := some input }, none)
      else (st2, some (st2.userInput.getD ""))
  | none => (st2, some (st2.userInput.getD ""))

/-- Embedded from `handle_stream_chunk` (lines 189–194): on a stream-chunk
event with non-empty data, default the `response` key to `""`, append the
fragment, and render the accumulated response (the markdown code fencing is
abstracted away); all other events are ignored. -/
def handle_stream_chunk (state : SessionState) (e : Event) :
    Except String SessionState :=
  match e with
  | .streamFragment data =>
      if data ≠ "" then
        .ok { state with
              response := some (state.response.getD "" ++ data),
              displayed := state.displayed ++ [state.response.getD "" ++ data] }
      else .ok state
  | _ => .ok state

/-- One row of the fetched price history. Prices are floats in pandas; the
numeric payload is irrelevant to the claims under proof, so values are
carried as integers. -/
structure HistRow where
  date : String
  openPrice : Int
  high : Int
  low : Int
  close : Int
  volume : Int
deriving DecidableEq, Repr

/-- One row serialized as a JSON object. -/
def rowToJson (r : HistRow) : String :=
  "\x7b\"Date\":\"" ++ r.date ++ "\",\"Open\":" ++ toString r.openPrice ++
    ",\"High\":" ++ toString r.high ++ ",\"Low\":" ++ toString r.low ++
    ",\"Close\":" ++ toString r.close ++ ",\"Volume\":" ++ toString r.volume ++ "\x7d"

/-- The history serialized as JSON (`df.to_json(date_format="iso")`): the
exact pandas orientation is abstracted; what matters below is that it is a
brace-delimited JSON object string. -/
def histToJson (rows : List HistRow) : String :=
  "\x7b" ++ (String.intercalate "," (rows.map rowToJson) ++ "\x7d")

/-- Embedded from `YFinanceTool.execute` (lines 126–144): `fetch` is the
outcome of `yf.Ticker(ticker).history(start, end)` (`Except.error` when the
fetch raises); `renderErr` is `some e` when rendering/serialization of a
non-empty history raises. On a fetch exception or a rendering exception the
caught message is returned as `"Data error: " ++ e`; an empty history
returns `""` before any rendering; otherwise the table is rendered and the
history returned as JSON. -/
def yfinance_execute (state : SessionState) (ticker start_date end_date : String)
    (fetch : Except String (List HistRow)) (renderErr : Option String) :
    SessionState × String :=
  match fetch with
  | .error e => (state, "Data error: " ++ e)
  | .ok hist =>
      if hist.isEmpty then (state, "")
      else
        match renderErr with
        | some e => (state, "Data error: " ++ e)
        | none =>
            ({ state with displayed := state.displayed ++ [ticker ++ " Historical Data"] },
              histToJson hist)

/-- Embedded from `VisualizationTool.execute` (lines 160–186): parse the JSON
data (`parseJson` models `pd.read_json`), build a candle/area/line figure
from `chart_type`, render it, and report success; any exception is caught and
returned as `"Viz error: " ++ e`. -/
def visualization_execute (parseJson : String → Except String (List HistRow))
    (state : SessionState) (data chart_type : String) (caption : Option String)
    (renderErr : Option String) : SessionState × String :=
  match parseJson data with
  | .error e => (state, "Viz error: " ++ e)
  | .ok df =>
      match renderErr with
      | some e => (state, "Viz error: " ++ e)
      | none =>
          ({ state with displayed := state.displayed ++
              [(if chart_type == "candle" then "candlestick chart"
                else if chart_type == "area" then "area chart"
                else "line chart") ++ caption.getD ""] },
            "Graph displayed successfully")

/-- Embedded from `TechnicalAnalysisTool.execute` (lines 76–112): fetch the
history through `YFinanceTool().execute` (threading the session state it
renders into), parse the returned JSON, compute the requested indicator
(the pandas rolling SMA/RSI numeric kernels and their serialization are the
parameters `smaSerialize`/`rsiSerialize`), render, and return the indicator
frame as JSON; an unrecognized indicator returns `"Unsupported indicator"`
and any exception is caught and returned as `"Analysis error: " ++ e`. -/
def technicalAnalysis_execute (parseJson : String → Except String (List HistRow))
    (smaSerialize rsiSerialize : List HistRow → Nat → String)
    (state : SessionState) (symbol indicator : String) (period : Nat)
    (start_date end_date : String) (fetch : Except String (List HistRow))
    (yfRenderErr taRenderErr : Option String) : SessionState × String :=
  let st1 := (yfinance_execute state symbol start_date end_date fetch yfRenderErr).1
  let data := (yfinance_execute state symbol start_date end_date fetch yfRenderErr).2
  match parseJson data with
  | .error e => (st1, "Analysis error: " ++ e)
  | .ok df =>
      if indicator.toLower == "sma" then
        match taRenderErr with
        | some e => (st1, "Analysis error: " ++ e)
        | none =>
            ({ st1 with displayed := st1.displayed ++
                [symbol.toUpper ++ " SMA (" ++ toString period ++ " days)"] },
              smaSerialize df period)
      else if indicator.toLower == "rsi" then
        match taRenderErr with
        | some e => (st1, "Analysis error: " ++ e)
        | none =>
            ({ st1 with displayed := st1.displayed ++
                [symbol.toUpper ++ " RSI (" ++ toString period ++ " days)"] },
              rsiSerialize df period)
      else (st1, "Unsupported indicator")

/-- C8 counterexample: two invocations of `StreamlitInputTool.execute` with
the identical argument (`question = "Which ticker?"`) and identical
external-resource response (no form submission in either render) return
different results — `some ""` from a fresh session versus `some "AAPL"` from
the session state left behind by an earlier submission — so its result
depends on shared mutable session state, not only on its arguments. -/
theorem streamlit_input_depends_on_session_state :
    (streamlitInput_execute freshSession "Which ticker?" none).2 = some "" ∧
    (streamlitInput_execute
        (streamlitInput_execute freshSession "Which ticker?" (some "AAPL")).1
        "Which ticker?" none).2 = some "AAPL" ∧
    (streamlitInput_execute freshSession "Which ticker?" none).2 ≠
      (streamlitInput_execute
        (streamlitInput_execute freshSession "Which ticker?" (some "AAPL")).1
        "Which ticker?" none).2 := by
  refine ⟨rfl, rfl, ?_⟩
  decide

/-- The result text of `YFinanceTool.execute` as a function of the fetch and
rendering outcomes alone. -/
def yfinanceResult (fetch : Except String (List HistRow))
    (renderErr : Option String) : String :=
  match fetch with
  | .error e => "Data error: " ++ e
  | .ok hist =>
      if hist.isEmpty then ""
      else
        match renderErr with
        | some e => "Data error: " ++ e
        | none => histToJson hist

/-- `YFinanceTool.execute` never reads the session state for its result. -/
theorem yfinance_execute_snd (state : SessionState)
    (ticker start_date end_date : String) (fetch : Except String (List HistRow))
    (renderErr : Option String) :
    (yfinance_execute state ticker start_date end_date fetch renderErr).2 =
      yfinanceResult fetch renderErr := by
  unfold yfinance_execute yfinanceResult
  rcases fetch with e | hist
  · rfl
  · by_cases h : hist.isEmpty
    · simp [h]
    · rcases renderErr with _ | e
      · simp [h]
      · simp [h]

/-- C8 (amended): the result strings of `YFinanceTool.execute`,
`VisualizationTool.execute` and `TechnicalAnalysisTool.execute` are pure
functions of their named arguments plus their external-resource outcomes —
identical arguments and identical external outcomes give identical results
from any two session states. (`StreamlitInputTool.execute` is the exception
established by the counterexample.) -/
theorem tool_results_independent_of_session_state
    (s1 s2 : SessionState) (ticker start_date end_date : String)
    (fetch : Except String (List HistRow)) (renderErr : Option String)
    (parseJson : String → Except String (List HistRow))
    (data chart_type : String) (caption : Option String) (vizRenderErr : Option String)
    (smaSerialize rsiSerialize : List HistRow → Nat → String)
    (symbol indicator : String) (period : Nat) (yfRenderErr taRenderErr : Option String) :
    (yfinance_execute s1 ticker start_date end_date fetch renderErr).2 =
      (yfinance_execute s2 ticker start_date end_date fetch renderErr).2 ∧
    (visualization_execute parseJson s1 data chart_type caption vizRenderErr).2 =
      (visualization_execute parseJson s2 data chart_type caption vizRenderErr).2 ∧
    (technicalAnalysis_execute parseJson smaSerialize rsiSerialize s1 symbol indicator
        period start_date end_date fetch yfRenderErr taRenderErr).2 =
      (technicalAnalysis_execute parseJson smaSerialize rsiSerialize s2 symbol indicator
        period start_date end_date fetch yfRenderErr taRenderErr).2 := by
  refine ⟨?_, ?_, ?_⟩
  · rw [yfinance_execute_snd, yfinance_execute_snd]
  · unfold visualization_execute
    rcases hp : parseJson data with e | df
    · simp only [hp]
    · simp only [hp]
      rcases vizRenderErr with _ | e
      · rfl
      · rfl
  · simp only [technicalAnalysis_execute]
    rw [yfinance_execute_snd s1 symbol start_date end_date fetch yfRenderErr,
      yfinance_execute_snd s2 symbol start_date end_date fetch yfRenderErr]
    rcases hp : parseJson (yfinanceResult fetch yfRenderErr) with e | df
    · try simp only [hp]
      try rfl
    · try simp only [hp]
      rcases hs : indicator.toLower == "sma" with _ | _
      · rcases hr : indicator.toLower == "rsi" with _ | _
        · try simp only [hs, hr]
          try rfl
        · try simp only [hs, hr]
          rcases taRenderErr with _ | e
          · rfl
          · rfl
      · try simp only [hs]
        rcases taRenderErr with _ | e
        · rfl
        · rfl

/-- The error message format cannot be the empty string. -/
theorem dataError_ne_empty (e : String) : "Data error: " ++ e ≠ "" := by
  intro h
  have hlen := congrArg String.length h
  rw [String.length_append] at hlen
  have h12 : ("Data error: " : String).length = 12 := rfl
  rw [h12] at hlen
  simp at hlen

/-- The JSON serialization is never empty. -/
theorem histToJson_ne_empty (rows : List HistRow) : histToJson rows ≠ "" := by
  intro h
  have hlen := congrArg String.length h
  unfold histToJson at hlen
  rw [String.length_append] at hlen
  have h1 : ("\x7b" : String).length = 1 := rfl
  rw [h1] at hlen
  simp at hlen

/-- The JSON serialization starts with a brace, never with "Data error: ". -/
theorem histToJson_ne_dataError (rows : List HistRow) (e : String) :
    histToJson rows ≠ "Data error: " ++ e := by
  intro h
  have hd := congrArg String.data h
  unfold histToJson at hd
  rw [String.data_append, String.data_append, String.data_append] at hd
  have h1 : ("\x7b" : String).data = [Char.ofNat 123] := rfl
  have h2 : ("Data error: " : String).data = 'D' :: ("ata error: " : String).data := rfl
  rw [h1, h2] at hd
  simp only [List.cons_append, List.nil_append] at hd
  injection hd with hc _
  exact absurd hc (by decide)

/-- C10: `YFinanceTool.execute` returns `""` exactly when the fetched history
is empty (and no fetch exception occurred); on a fetch exception it returns
the caught message behind "Data error: "; with a non-empty history and no
rendering exception it returns the history as JSON (which is not a
"Data error: " string); and any "Data error: " result comes from a fetch or
rendering exception. -/
theorem yfinance_empty_error_json_trichotomy (state : SessionState)
    (ticker start_date end_date : String) (fetch : Except String (List HistRow))
    (renderErr : Option String) :
    ((yfinance_execute state ticker start_date end_date fetch renderErr).2 = "" ↔
      fetch = .ok []) ∧
    (∀ e, fetch = .error e →
      (yfinance_execute state ticker start_date end_date fetch renderErr).2 =
        "Data error: " ++ e) ∧
    (∀ hist, fetch = .ok hist → hist ≠ [] → renderErr = none →
      (yfinance_execute state ticker start_date end_date fetch renderErr).2 =
        histToJson hist ∧
      ∀ e, (yfinance_execute state ticker start_date end_date fetch renderErr).2 ≠
        "Data error: " ++ e) ∧
    (∀ e, (yfinance_execute state ticker start_date end_date fetch renderErr).2 =
        "Data error: " ++ e →
      (∃ e2, fetch = .error e2) ∨
        (renderErr ≠ none ∧ ∃ hist, fetch = .ok hist ∧ hist ≠ [])) := by
  rw [yfinance_execute_snd]
  unfold yfinanceResult
  rcases fetch with e | hist
  · refine ⟨⟨fun h => absurd h (dataError_ne_empty e), fun h => nomatch h⟩,
      ?_, ?_, ?_⟩
    · intro e2 he2
      injection he2 with he2
      rw [he2]
    · intro hist h; exact absurd h (fun hc => nomatch hc)
    · intro e2 _; exact Or.inl ⟨e, rfl⟩
  · dsimp only
    by_cases hemp : hist.isEmpty
    · rw [if_pos hemp]
      have hnil : hist = [] := by simpa [List.isEmpty_iff] using hemp
      refine ⟨⟨fun _ => by rw [hnil], fun _ => rfl⟩, ?_, ?_, ?_⟩
      · intro e he; exact absurd he (fun hc => nomatch hc)
      · intro hist2 hh hne _
        injection hh with hh
        exact absurd (hh.symm.trans hnil) hne
      · intro e he
        exact absurd he.symm (dataError_ne_empty e)
    · rw [if_neg hemp]
      have hne : hist ≠ [] := by
        intro hc; rw [hc] at hemp; exact hemp rfl
      rcases renderErr with _ | e
      · refine ⟨⟨fun h => absurd h (histToJson_ne_empty hist), fun h => ?_⟩,
          ?_, ?_, ?_⟩
        · injection h with h; exact absurd h hne
        · intro e he; exact absurd he (fun hc => nomatch hc)
        · intro hist2 hh _ _
          injection hh with hh
          rw [← hh]
          exact ⟨rfl, fun e => histToJson_ne_dataError hist e⟩
        · intro e he
          exact absurd he (histToJson_ne_dataError hist e)
      · refine ⟨⟨fun h => absurd h (dataError_ne_empty e), fun h => ?_⟩, ?_, ?_, ?_⟩
        · injection h with h; exact absurd h hne
        · intro e2 he2; exact absurd he2 (fun hc => nomatch hc)
        · intro hist2 hh hne2 hre; exact absurd hre (fun hc => nomatch hc)
        · intro e2 _
          exact Or.inr ⟨(fun hc => nomatch hc), hist, rfl, hne⟩

/-- Witness for C10: an empty fetched history yields the empty string. -/
theorem yfinance_empty_error_json_trichotomy_witness :
    (yfinance_execute freshSession "AAPL" "2020-01-01" "2023-01-01"
        (Except.ok []) none).2 = "" :=
  (yfinance_empty_error_json_trichotomy freshSession "AAPL" "2020-01-01" "2023-01-01"
      (Except.ok []) none).1.mpr rfl

/-- A handler standing in for `track_events` when exercising the bus: it
always raises (as `track_events` does when `st.session_state.current_status`
is missing). -/
def trackStatusStub : SessionState → Event → Except String SessionState :=
  fun _ _ => .error "AttributeError: current_status"

/-- The finance agent's bus registrations (`main`, lines 219–223): the status
tracker on the thinking/tool kinds, then `handle_stream_chunk` on
stream-fragment events. -/
def sampleBus : EventEmitter SessionState :=
  EventEmitter.on
    (EventEmitter.on ⟨[]⟩
      [.modelThinkingStarted, .toolStarted, .modelThinkingEnded] trackStatusStub)
    [.streamFragment] handle_stream_chunk

/-- Witness for C7 at the finance agent's registrations and a concrete
stream-fragment event. -/
theorem emit_delivers_in_order_isolating_errors_witness :
    (sampleBus.emit (Event.streamFragment "Hello") freshSession).2.map Prod.fst =
      matchingIndices sampleBus (Event.streamFragment "Hello") :=
  emit_delivers_in_order_isolating_errors sampleBus (Event.streamFragment "Hello")
    freshSession

/-- A concrete fragment oracle for the C6 witness. -/
def sampleFragOracle : Nat → List String := fun _ => ["Hello, ", "world"]

/-- A concrete parser for the C6 witness: treat every output as final. -/
def sampleParse : String → ParsedAction := fun s => ParsedAction.finalAnswer s

/-- Witness for C6 at a concrete fragment sequence. -/
theorem streaming_equivalence_witness :
    (processFragments true ["Hello, ", "world"]).2 =
      (processFragments false ["Hello, ", "world"]).2 :=
  (streaming_equivalence ["Hello, ", "world"] sampleFragOracle sampleParse
      sampleToolRegistry joinSummary 10 2 3).1

/-! ## Terminal handling (`quantalogic/main.py`) -/

/-- The two platform branches `main.py` distinguishes. -/
inductive Platform where
  | win32
  | posix
deriving DecidableEq, Repr

/-- Observable terminal state: the termios attribute vector (abstracted to
one value) and the rest of the terminal state, which the wrapper never
touches. -/
structure TerminalState where
  attrs : Nat
  other : Nat
deriving DecidableEq, Repr

/-- The facts `main.py` branches on: the platform, whether the
`termios`/`tty` imports succeeded, whether each termios call succeeds, and
the attribute vector `tty.setraw` installs as a function of the current
one. (On win32 the `msvcrt` probe only logs; it never touches the
terminal, so it needs no field here.) -/
structure TermEnv where
  platform : Platform
  termiosAvailable : Bool
  tcgetattrOk : Bool
  setrawOk : Bool
  tcsetattrOk : Bool
  rawOf : Nat → Nat

/-- Embedded from `setup_terminal` (lines 48–65): on win32, return None
without touching the terminal; otherwise, with termios available, save the
current attributes and switch to raw mode, returning the saved attributes —
and on a `termios.error` from either call (or missing modules) log and
return None, leaving the terminal unchanged. -/
def setup_terminal (env : TermEnv) (t : TerminalState) : Option Nat × TerminalState :=
  match env.platform with
  | .win32 => (none, t)
  | .posix =>
      if env.termiosAvailable then
        if env.tcgetattrOk then
          if env.setrawOk then (some t.attrs, { t with attrs := env.rawOf t.attrs })
          else (none, t)
        else (none, t)
      else (none, t)

/-- Embedded from `restore_terminal` (lines 68–74): reapply the saved
attributes via `tcsetattr` when not on win32, termios imported and settings
were actually saved (`old_settings` truthy — a termios attribute list is
never empty, so `some` models truthy); a `termios.error` is logged and
leaves the terminal as it was. -/
def restore_terminal (env : TermEnv) (old : Option Nat) (t : TerminalState) :
    TerminalState :=
  match env.platform, old with
  | .win32, _ => t
  | .posix, none => t
  | .posix, some o =>
      if env.termiosAvailable then
        (if env.tcsetattrOk then { t with attrs := o } else t)
      else t

/-- Embedded from `main` (lines 245–251): capture the settings, run `cli()`
(whose effect on the terminal is arbitrary and which may raise or exit —
`cliRaises`), and restore in a `finally` block; the exception, if any,
propagates after restoration. -/
def main (env : TermEnv) (cliEffect : TerminalState → TerminalState)
    (cliRaises : Bool) (t0 : TerminalState) : TerminalState × Bool :=
  ((restore_terminal env (setup_terminal env t0).1
      (cliEffect (setup_terminal env t0).2)), cliRaises)

/-- C9: on a non-win32 platform with termios available and the termios calls
succeeding, `main` always ends with the attribute vector it started with —
whatever `cli()` did to the terminal and whether or not it raised — the
wrapper touches nothing but the attribute vector, and with an identity
`cli()` the terminal state is exactly restored. -/
theorem main_restores_terminal (env : TermEnv)
    (cliEffect : TerminalState → TerminalState) (cliRaises : Bool)
    (t0 : TerminalState)
    (hp : env.platform = .posix) (hta : env.termiosAvailable = true)
    (hget : env.tcgetattrOk = true) (hraw : env.setrawOk = true)
    (hset : env.tcsetattrOk = true) :
    (main env cliEffect cliRaises t0).1.attrs = t0.attrs ∧
    (main env cliEffect cliRaises t0).1.other =
      (cliEffect { t0 with attrs := env.rawOf t0.attrs }).other ∧
    (main env (fun t => t) cliRaises t0).1 = t0 ∧
    (main env cliEffect cliRaises t0).2 = cliRaises := by
  simp [main, setup_terminal, restore_terminal, hp, hta, hget, hraw, hset]

/-- A concrete posix environment for the C9 witness. -/
def sampleTermEnv : TermEnv := ⟨.posix, true, true, true, true, fun a => a + 1⟩

/-- A cli effect that disturbs the attribute vector, for the C9 witness. -/
def sampleCliEffect : TerminalState → TerminalState :=
  fun t => { t with attrs := t.attrs + 42 }

/-- Witness for C9 at a concrete environment, cli effect and raise flag. -/
theorem main_restores_terminal_witness :
    (sampleTermEnv.platform = .posix ∧ sampleTermEnv.termiosAvailable = true ∧
      sampleTermEnv.tcgetattrOk = true ∧ sampleTermEnv.setrawOk = true ∧
      sampleTermEnv.tcsetattrOk = true) ∧
    ((main sampleTermEnv sampleCliEffect true ⟨5, 7⟩).1.attrs = 5 ∧
      (main sampleTermEnv (fun t => t) true ⟨5, 7⟩).1 = (⟨5, 7⟩ : TerminalState) ∧
      (main sampleTermEnv sampleCliEffect true ⟨5, 7⟩).2 = true) :=
  ⟨⟨rfl, rfl, rfl, rfl, rfl⟩,
    (main_restores_terminal sampleTermEnv sampleCliEffect true ⟨5, 7⟩
        rfl rfl rfl rfl rfl).1,
    (main_restores_terminal sampleTermEnv (fun t => t) true ⟨5, 7⟩
        rfl rfl rfl rfl rfl).2.2.1,
    (main_restores_terminal sampleTermEnv sampleCliEffect true ⟨5, 7⟩
        rfl rfl rfl rfl rfl).2.2.2⟩

end Quantalogic
